import Mathlib

/-!
Verification of the multi-cluster ingress configuration-synthesis engine
(`getBackendServersFromMCIs`, `createUpstreamsFromMCIs`, `createServersFromMCIs`,
`mergeAlternativeBackendsByMCI`, `checkOverlapWithMCI` and their helpers) against
its natural-language specification.  The Go code is shallowly embedded: maps
become association lists, pointer mutation becomes explicit state passing, and a
Go nil-pointer dereference (a panic) is modelled by `Except.error`.
-/

/-- Path match kind (`networking.PathType`): Exact, Prefix or
ImplementationSpecific. -/
inductive PathKind where
  | exact
  | pfx
  | implSpecific
deriving DecidableEq, Repr

/-- State of the raw `canary` annotation on a resource, as seen by
`parser.GetBoolAnnotationFromMCI`.  Modelled from the spec: the parser is an
external collaborator; it reports a missing annotation, an unparseable value,
or the parsed boolean. -/
inductive CanaryAnn where
  | missing
  | invalid
  | present (b : Bool)
deriving DecidableEq, Repr

/-- Error kinds returned by the annotation parser.  Modelled from the spec:
only "missing annotation" is distinguished by the overlap check. -/
inductive AnnErr where
  | missingAnnotations
  | invalidContent
deriving DecidableEq, Repr

/-- `parser.GetBoolAnnotationFromMCI("canary", mci)`.  Modelled from the spec:
returns the parsed boolean, or `ErrMissingAnnotations` when the annotation is
absent; the Go function returns `false` together with the error. -/
def getBoolAnnotationCanary : CanaryAnn → Except AnnErr Bool
  | .missing => .error .missingAnnotations
  | .invalid => .error .invalidContent
  | .present b => .ok b

/-- The boolean value the Go caller observes (`false` on any error). -/
def canaryVal (a : CanaryAnn) : Bool :=
  match getBoolAnnotationCanary a with
  | .ok b => b
  | .error _ => false

/-- Whether the Go caller observes `annotationErr == errors.ErrMissingAnnotations`. -/
def canaryMissing (a : CanaryAnn) : Bool :=
  match getBoolAnnotationCanary a with
  | .ok _ => false
  | .error e => e = .missingAnnotations

/-- A reference to an owning `MultiClusterIngress` resource: its identity key
(namespace + name) and its raw `canary` annotation, which is all the admission
overlap check reads off `location.MultiClusterIngress`. -/
structure MCIRef where
  ns : String
  name : String
  canaryAnn : CanaryAnn
deriving DecidableEq, Repr

/-- Service reference of a backend (`path.Backend.Service` /
`mci.Spec.DefaultBackend.Service`): service name and the rendered port. -/
structure ServiceRef where
  name : String
  port : String
deriving DecidableEq, Repr

/-- One entry of `rule.HTTP.Paths`. -/
structure HTTPPath where
  path : String
  pathType : Option PathKind
  service : Option ServiceRef
deriving DecidableEq, Repr

/-- One entry of `mci.Spec.Rules`; `http = none` models a nil `rule.HTTP`. -/
structure Rule where
  host : String
  http : Option (List HTTPPath)
deriving DecidableEq, Repr

/-- One entry of `mci.Spec.TLS`. -/
structure TLSEntry where
  hosts : List String
  secretName : String
deriving DecidableEq, Repr

/-- The parsed canary annotation group (`anns.Canary`). -/
structure CanaryConfig where
  enabled : Bool := false
  weight : Int := 0
  weightTotal : Int := 0
  header : String := ""
  headerValue : String := ""
  headerPattern : String := ""
  cookie : String := ""
deriving DecidableEq, Repr

/-- Redirect policy of a location; `fromToWWW` is the field the builder reads,
`target` stands for the remaining payload. -/
structure RedirectConfig where
  fromToWWW : Bool := false
  target : String := ""
deriving DecidableEq, Repr

/-- Rewrite policy of a location (payload abstracted to one field). -/
structure RewriteConfig where
  target : String := ""
deriving DecidableEq, Repr

/-- Session-affinity policy carried by a backend; `DeepCopyInto` is plain
assignment on this value type. -/
structure SessionAffinityPolicy where
  affinityType : String := ""
  affinityMode : String := ""
  cookieName : String := ""
deriving DecidableEq, Repr

/-- The parsed annotation bundle of a resource (`mci.ParsedAnnotations`),
restricted to the fields the verified code paths read. -/
structure Annotations where
  canary : CanaryConfig := {}
  loadBalancing : String := ""
  upstreamHashBy : String := ""
  upstreamHashBySubset : Bool := false
  upstreamHashBySubsetSize : Int := 0
  serviceUpstream : Bool := false
  canaryBehavior : String := ""
  redirect : RedirectConfig := {}
  rewrite : RewriteConfig := {}
  auth : String := ""
  affinityType : String := ""
  affinityMode : String := ""
deriving DecidableEq, Repr

/-- A routing resource (`ingress.MultiClusterIngress`) with its parsed
annotation bundle. -/
structure MCI where
  ns : String
  name : String
  canaryAnn : CanaryAnn := .missing
  parsedAnnotations : Annotations := {}
  defaultBackend : Option ServiceRef := none
  rules : List Rule := []
  tls : List TLSEntry := []
deriving DecidableEq, Repr

/-- The owner reference a location stores for a resource. -/
def MCI.ref (m : MCI) : MCIRef :=
  { ns := m.ns, name := m.name, canaryAnn := m.canaryAnn }

/-- Canary traffic-shaping policy stamped onto a backend
(`ingress.TrafficShapingPolicy`). -/
structure TrafficShapingPolicy where
  weight : Int := 0
  weightTotal : Int := 0
  header : String := ""
  headerValue : String := ""
  headerPattern : String := ""
  cookie : String := ""
deriving DecidableEq, Repr

/-- A named backend pool (`ingress.Backend`), restricted to the fields the
verified code paths read or write. -/
structure Backend where
  name : String
  port : String := ""
  endpoints : List String := []
  service : Option String := none
  noServer : Bool := false
  trafficShapingPolicy : TrafficShapingPolicy := {}
  alternativeBackends : List String := []
  sessionAffinity : SessionAffinityPolicy := {}
  loadBalancing : String := ""
  upstreamHashBy : String := ""
  upstreamHashBySubset : Bool := false
  upstreamHashBySubsetSize : Int := 0
deriving DecidableEq, Repr

/-- A location (`ingress.Location`): path-match rule of a server bound to one
backend; annotation-derived policy is represented by the redirect, rewrite and
`auth` fields. -/
structure Location where
  path : String
  pathType : Option PathKind
  backend : String
  isDefBackend : Bool := false
  service : Option String := none
  port : String := ""
  owner : Option MCIRef := none
  redirect : RedirectConfig := {}
  rewrite : RewriteConfig := {}
  auth : String := ""
deriving DecidableEq, Repr

/-- TLS certificate (`ingress.SSLCert`): whether the secret held a parsed
certificate, the hostnames validated by SAN, the hostnames validated by the
Common Name fallback, and an identity payload. -/
structure SSLCert where
  hasCertificate : Bool := true
  sanHosts : List String := []
  cnHosts : List String := []
  payload : String := ""
deriving DecidableEq, Repr

/-- A virtual host (`ingress.Server`), restricted to the verified fields. -/
structure Server where
  hostname : String
  locations : List Location
  sslCert : Option SSLCert := none
  aliases : List String := []
  sslCiphers : String := ""
  serverSnippet : String := ""
  redirectFromToWWW : Bool := false
deriving DecidableEq, Repr

/-- Reserved root location path.  Modelled from the spec: the constant lives in
the surrounding controller package. -/
def rootLocation : String := "/"

/-- Reserved catch-all hostname.  Modelled from the spec: the constant lives in
the surrounding controller package. -/
def defServerName : String := "_"

/-- Reserved default-backend key.  Modelled from the spec: the constant lives
in the surrounding controller package. -/
def defUpstreamName : String := "upstream-default-backend"

/-- Backend identity key.  Modelled from the spec: deterministically derived
from namespace, service name and service port. -/
def upstreamName (ns : String) (svc : ServiceRef) : String :=
  ns ++ "-" ++ svc.name ++ "-" ++ svc.port

/-- `mciForHostPath`: collects the owning resources of every non-default-backend
location at the given hostname and path.  Non-default locations always carry an
owner in the synthesized server set; an absent owner is skipped in the model. -/
def mciForHostPath (hostname path : String) (servers : List Server) : List MCIRef :=
  servers.flatMap fun server =>
    if hostname ≠ server.hostname then []
    else server.locations.filterMap fun loc =>
      if loc.path ≠ path then none
      else if loc.isDefBackend then none
      else loc.owner

/-- The candidate resource as seen by the admission overlap check. -/
structure AdmCandidate where
  ns : String
  name : String
  canaryAnn : CanaryAnn
  rules : List Rule
deriving DecidableEq, Repr

/-- The conflict decision of `checkOverlapWithMCI` for one existing resource:
conflict when both the candidate and the existing resource declared
`canary: true`, or when both lack the canary annotation. -/
def overlapConflict (cand : AdmCandidate) (existing : MCIRef) : Bool :=
  (canaryVal cand.canaryAnn && canaryVal existing.canaryAnn) ||
    (canaryMissing cand.canaryAnn && canaryMissing existing.canaryAnn)

/-- The flattened sequence of `(host, path)` pairs the overlap check visits:
rules without an HTTP section and paths without a service backend are skipped,
an empty host becomes the catch-all hostname and an empty path the root path. -/
def candidatePaths (cand : AdmCandidate) : List (String × String) :=
  cand.rules.flatMap fun rule =>
    match rule.http with
    | none => []
    | some paths =>
      let host := if rule.host = "" then defServerName else rule.host
      paths.filterMap fun p =>
        if p.service.isSome then
          some (host, if p.path = "" then rootLocation else p.path)
        else none

/-- The loop body of `checkOverlapWithMCI` over the flattened path sequence:
a path with no overlapping locations is skipped; at a path with overlaps the
function returns — `none` (accept) if some overlap belongs to the candidate
itself, otherwise the first conflicting existing resource if any, otherwise
`none` (accept).  The nested Go loops with early `return` are equivalent to
this recursion over the flattened sequence. -/
def checkOverlapPaths (cand : AdmCandidate) (servers : List Server) :
    List (String × String) → Option MCIRef
  | [] => none
  | (host, path) :: rest =>
    let existing := mciForHostPath host path servers
    if existing.isEmpty then checkOverlapPaths cand servers rest
    else if existing.any fun e => e.ns = cand.ns ∧ e.name = cand.name then none
    else
      match existing.find? (overlapConflict cand) with
      | some e => some e
      | none => none

/-- `checkOverlapWithMCI`: admission-time host+path overlap check; returns the
existing resource reported in the conflict error, or `none` for acceptance. -/
def checkOverlapWithMCI (cand : AdmCandidate) (servers : List Server) : Option MCIRef :=
  checkOverlapPaths cand servers (candidatePaths cand)

/-- Go `map[string]*Backend`: an association list with unique keys maintained
by `insertUps`. -/
abbrev Upstreams : Type := List (String × Backend)

/-- Map lookup (`upstreams[name]`, nil when absent). -/
def lookupUps (u : Upstreams) (k : String) : Option Backend :=
  match u with
  | [] => none
  | (k2, b) :: rest => if k = k2 then some b else lookupUps rest k

/-- Map write (`upstreams[name] = b`): replaces the entry when the key is
present, otherwise appends it. -/
def insertUps (u : Upstreams) (k : String) (b : Backend) : Upstreams :=
  match u with
  | [] => [(k, b)]
  | (k2, b2) :: rest =>
    if k = k2 then (k2, b) :: rest else (k2, b2) :: insertUps rest k b

/-- Map deletion (`delete(upstreams, name)`). -/
def eraseUps (u : Upstreams) (k : String) : Upstreams :=
  match u with
  | [] => []
  | (k2, b2) :: rest => if k = k2 then eraseUps rest k else (k2, b2) :: eraseUps rest k

/-- Go `map[string]*Server` for the server set. -/
abbrev ServersMap : Type := List (String × Server)

/-- Server map lookup (`servers[host]`, nil when absent). -/
def lookupSrv (s : ServersMap) (k : String) : Option Server :=
  match s with
  | [] => none
  | (k2, v) :: rest => if k = k2 then some v else lookupSrv rest k

/-- Server map write. -/
def insertSrv (s : ServersMap) (k : String) (v : Server) : ServersMap :=
  match s with
  | [] => [(k, v)]
  | (k2, v2) :: rest =>
    if k = k2 then (k2, v) :: rest else (k2, v2) :: insertSrv rest k v

/-- The external collaborators consumed by the upstream builder: cluster-wide
default load-balancing algorithm, the Endpoint Resolver (per-pod endpoints with
an optional error, and the single cluster-address endpoint), the Resource
Store's service getter, and the derived-service-name scheme. -/
structure Env where
  defaultLoadBalancing : String
  serviceEndpoints : String → String → List String × Option String
  clusterEndpoint : String → Except String String
  getService : String → Option String
  deriveName : String → String

/-- `newUpstream(name)`: a fresh backend holding only its name. -/
def newUpstream (name : String) : Backend := { name := name }

/-- The upstream the default-backend block of `createUpstreamsFromMCIs` builds
for a resource's default-backend service reference: a function of the
collaborators and the resource only, independent of any previously existing
entry. -/
def defBackendUpstream (env : Env) (mci : MCI) (svc : ServiceRef) : Backend :=
    let anns := mci.parsedAnnotations
    let defBackend := upstreamName mci.ns svc
    let b := newUpstream defBackend
    let b := { b with
      upstreamHashBy := anns.upstreamHashBy
      upstreamHashBySubset := anns.upstreamHashBySubset
      upstreamHashBySubsetSize := anns.upstreamHashBySubsetSize
      loadBalancing :=
        if anns.loadBalancing = "" then env.defaultLoadBalancing else anns.loadBalancing }
    let svcKey := mci.ns ++ "/" ++ env.deriveName svc.name
    let b :=
      if anns.serviceUpstream then
        match env.clusterEndpoint svcKey with
        | .error _ => b
        | .ok ep => { b with endpoints := [ep] }
      else b
    let b :=
      if anns.canary.enabled then
        { b with
          noServer := true
          trafficShapingPolicy :=
            { weight := anns.canary.weight
              weightTotal := anns.canary.weightTotal
              header := anns.canary.header
              headerValue := anns.canary.headerValue
              headerPattern := anns.canary.headerPattern
              cookie := anns.canary.cookie } }
      else b
    let b :=
      if b.endpoints.isEmpty then
        { b with endpoints := b.endpoints ++ (env.serviceEndpoints svcKey svc.port).1 }
      else b
    { b with service := env.getService svcKey }

/-- The default-backend block of `createUpstreamsFromMCIs` (one resource): when
the resource has a default-backend service reference, a fresh upstream is
written under its key — with no existence check, overwriting any previous
entry — and populated from the resource's annotations and the endpoint
state. -/
def processDefBackendUps (env : Env) (mci : MCI) (u : Upstreams) : Upstreams :=
  match mci.defaultBackend with
  | none => u
  | some svc => insertUps u (upstreamName mci.ns svc) (defBackendUpstream env mci svc)

/-- The rule/path block of `createUpstreamsFromMCIs` (one path): a path whose
key is already present is skipped entirely; otherwise a fresh upstream is
created and populated.  An endpoint-resolution or service-lookup error aborts
the remaining population of this upstream (Go `continue`). -/
def processPathUps (env : Env) (mci : MCI) (u : Upstreams) (p : HTTPPath) : Upstreams :=
  match p.service with
  | none => u
  | some svc =>
    let anns := mci.parsedAnnotations
    let name := upstreamName mci.ns svc
    match lookupUps u name with
    | some _ => u
    | none =>
      let b := { newUpstream name with port := svc.port }
      let b := { b with
        upstreamHashBy := anns.upstreamHashBy
        upstreamHashBySubset := anns.upstreamHashBySubset
        upstreamHashBySubsetSize := anns.upstreamHashBySubsetSize
        loadBalancing :=
          if anns.loadBalancing = "" then env.defaultLoadBalancing else anns.loadBalancing }
      let svcKey := mci.ns ++ "/" ++ env.deriveName svc.name
      let b :=
        if anns.serviceUpstream then
          match env.clusterEndpoint svcKey with
          | .error _ => b
          | .ok ep => { b with endpoints := [ep] }
        else b
      let b :=
        if anns.canary.enabled then
          { b with
            noServer := true
            trafficShapingPolicy :=
              { weight := anns.canary.weight
                header := anns.canary.header
                headerValue := anns.canary.headerValue
                headerPattern := anns.canary.headerPattern
                cookie := anns.canary.cookie } }
        else b
      if b.endpoints.isEmpty then
        match env.serviceEndpoints svcKey svc.port with
        | (_, some _) => insertUps u name b
        | (endp, none) =>
          let b := { b with endpoints := endp }
          match env.getService svcKey with
          | none => insertUps u name b
          | some s => insertUps u name { b with service := some s }
      else
        match env.getService svcKey with
        | none => insertUps u name b
        | some s => insertUps u name { b with service := some s }

/-- `createUpstreamsFromMCIs` for one resource: the default-backend block, then
every rule/path with an HTTP section. -/
def processMCIUps (env : Env) (u : Upstreams) (mci : MCI) : Upstreams :=
  mci.rules.foldl (fun u rule =>
      match rule.http with
      | none => u
      | some paths => paths.foldl (fun u p => processPathUps env mci u p) u)
    (processDefBackendUps env mci u)

/-- `createUpstreamsFromMCIs`: seeds the map with the default backend under the
reserved key, then processes every resource in order. -/
def createUpstreamsFromMCIs (env : Env) (mcis : List MCI) (defaultUpstream : Backend) :
    Upstreams :=
  mcis.foldl (processMCIUps env) (insertUps [] defUpstreamName defaultUpstream)

/-- `locationApplyAnnotations`.  Modelled from the spec: copies the
annotation-derived per-location policy onto the location (represented by the
redirect, rewrite and auth fields). -/
def locationApplyAnnotations (loc : Location) (anns : Annotations) : Location :=
  { loc with redirect := anns.redirect, rewrite := anns.rewrite, auth := anns.auth }

/-- The location scan of `getBackendServersFromMCIs` (the loop over
`server.Locations` for one rule/path): walks the list up to the first location
with the same path.  If its path kind differs the scan stops and the caller
appends (`break` with `addLoc` still true, result `none`); if it is a
placeholder default-backend location it is replaced in place; otherwise the
new definition is skipped with a warning. -/
def scanLocations (newLoc : Location) : List Location → Option (List Location)
  | [] => none
  | loc :: rest =>
    if loc.path = newLoc.path then
      if loc.pathType ≠ newLoc.pathType then none
      else if ¬ loc.isDefBackend then some (loc :: rest)
      else some ({ newLoc with path := loc.path, pathType := loc.pathType } :: rest)
    else (scanLocations newLoc rest).map (loc :: ·)

/-- One rule/path insertion into a server's location list: the scan above, and
an append when the scan did not settle the path. -/
def addLocation (newLoc : Location) (locs : List Location) : List Location :=
  match scanLocations newLoc locs with
  | some locs2 => locs2
  | none => locs ++ [newLoc]

/-- No two locations of the list share the same `(path, pathType)` key. -/
def locationsKeyUnique (locs : List Location) : Prop :=
  locs.Pairwise fun a b => ¬ (a.path = b.path ∧ a.pathType = b.pathType)

instance : DecidablePred locationsKeyUnique := fun locs =>
  List.instDecidablePairwise locs

/-- The catch-all override block of pass 1 of `createServersFromMCIs`
(lines guarded by the canary skip): returns the resource's fallback upstream
name and the new catch-all root location.  When the non-canary resource has a
default-backend reference whose upstream exists, the root location's backend,
service and owner are rewritten unconditionally; only when the root location is
still the placeholder and the resource declares no rules is the placeholder
flag cleared and the annotation bundle applied, with the previous redirect and
rewrite restored afterwards. -/
def catchAllStep (defaultUpstreamNm : String) (mci : MCI) (upstreams : Upstreams)
    (defLoc : Location) : String × Location :=
  if mci.parsedAnnotations.canary.enabled then (defaultUpstreamNm, defLoc)
  else
    match mci.defaultBackend with
    | none => (defaultUpstreamNm, defLoc)
    | some svc =>
      let defUpstream := upstreamName mci.ns svc
      match lookupUps upstreams defUpstream with
      | none => (defaultUpstreamNm, defLoc)
      | some backendUpstream =>
        let un := backendUpstream.name
        let defLoc2 := { defLoc with
          backend := backendUpstream.name
          service := backendUpstream.service
          owner := some mci.ref }
        if defLoc2.isDefBackend ∧ mci.rules = [] then
          let defLoc3 := { defLoc2 with isDefBackend := false }
          let originalRedirect := defLoc3.redirect
          let originalRewrite := defLoc3.rewrite
          let defLoc4 := locationApplyAnnotations defLoc3 mci.parsedAnnotations
          (un, { defLoc4 with redirect := originalRedirect, rewrite := originalRewrite })
        else (un, defLoc2)

/-- `cert.Certificate.VerifyHostname(host)`: succeeds when the certificate's
SAN set validates the host. -/
def verifySAN (host : String) (cert : SSLCert) : Bool :=
  cert.sanHosts.contains host

/-- `verifyHostname(host, cert)`.  Modelled from the spec: the fallback check
of the certificate's Common Name, used when SAN validation fails. -/
def verifyCN (host : String) (cert : SSLCert) : Bool :=
  cert.cnHosts.contains host

/-- ASCII lower-casing used for the naive TLS host comparison. -/
def toLowerCaseASCII (s : String) : String := String.mk (s.data.map Char.toLower)

/-- `extractTLSSecretNameFromMCI`: first the secret name of any TLS entry whose
host list contains the host (case-insensitive exact match); failing that, the
first TLS entry with a non-empty secret name whose loadable certificate
validates the host by SAN; otherwise the empty string. -/
def extractTLSSecretNameFromMCI (host : String) (mci : Option MCI)
    (getLocalSSLCert : String → Option SSLCert) : String :=
  match mci with
  | none => ""
  | some mci =>
    let lowercaseHost := toLowerCaseASCII host
    match mci.tls.findSome? (fun tls =>
        if tls.hosts.any fun tlsHost => toLowerCaseASCII tlsHost = lowercaseHost then
          some tls.secretName
        else none) with
    | some name => name
    | none =>
      match mci.tls.findSome? (fun tls =>
          if tls.secretName = "" then none
          else
            match getLocalSSLCert (mci.ns ++ "/" ++ tls.secretName) with
            | none => none
            | some cert =>
              if ¬ cert.hasCertificate then none
              else if verifySAN host cert then some tls.secretName
              else none) with
      | some name => name
      | none => ""

/-- The per-host TLS block of pass 2 of `createServersFromMCIs`: the
certificate assigned to a server with no certificate yet, for one resource.
`none` means the resource has no TLS section and assignment is skipped;
otherwise the result is the loaded, host-validated certificate, or the default
cluster certificate when any resolution tier fails. -/
def resolveServerCert (host : String) (mci : MCI)
    (getLocalSSLCert : String → Option SSLCert) (defaultCert : SSLCert) :
    Option SSLCert :=
  if mci.tls.isEmpty then none
  else
    let tlsSecretName := extractTLSSecretNameFromMCI host (some mci) getLocalSSLCert
    if tlsSecretName = "" then some defaultCert
    else
      let secrKey := mci.ns ++ "/" ++ tlsSecretName
      match getLocalSSLCert secrKey with
      | none => some defaultCert
      | some cert =>
        if ¬ cert.hasCertificate then some defaultCert
        else if verifySAN host cert then some cert
        else if verifyCN host cert then some cert
        else some defaultCert

/-- Go panic message for a nil-pointer dereference; synthesis steps that
dereference a nil pointer are modelled as this `Except.error`. -/
def nilDeref : String := "runtime error: invalid memory address or nil pointer dereference"

/-- `canMergeBackend`.  Modelled from the spec: a primary location backend is
mergeable with an alternative backend when the two are distinct backends and
the primary is not itself a canary (`NoServer`) backend. -/
def canMergeBackend (priUps altUps : Backend) : Bool :=
  priUps.name ≠ altUps.name && !priUps.noServer

/-- `mergeAlternativeBackendByMCI`: refuses when the primary is a `NoServer`
backend; succeeds as a no-op when the alternative's name is already listed;
otherwise copies the primary's session affinity onto the alternative (unless
the resource requests legacy canary behavior) and appends the alternative's
name.  Returns the reported success and the updated primary and alternative. -/
def mergeAlternativeBackendByMCI (mci : MCI) (priUps altUps : Backend) :
    Bool × Backend × Backend :=
  if priUps.noServer then (false, priUps, altUps)
  else if priUps.alternativeBackends.contains altUps.name then (true, priUps, altUps)
  else
    let altUps :=
      if mci.parsedAnnotations.canaryBehavior ≠ "legacy" then
        { altUps with sessionAffinity := priUps.sessionAffinity }
      else altUps
    (true, { priUps with alternativeBackends := priUps.alternativeBackends ++ [altUps.name] },
      altUps)

/-- The location scan of `mergeAlternativeBackendsByMCI` for one alternative
backend: walks the server's locations carrying the upstream map, the current
alternative value and the merge flag; breaks when the alternative equals a
location's primary (returned as the final flag).  `cond loc` is the extra
per-location match condition (true for the default-backend case; path and
path-kind equality — with a possible nil path-kind dereference — for the
rule/path case).  A location whose backend is absent from the map is a nil
dereference. -/
def mergeLocLoop (mci : MCI) (cond : Location → Except String Bool) :
    List Location → Upstreams × Backend × Bool →
    Except String (Upstreams × Backend × Bool × Bool)
  | [], (u, alt, merged) => .ok (u, alt, merged, false)
  | loc :: rest, (u, alt, merged) =>
    match lookupUps u loc.backend with
    | none => .error nilDeref
    | some priUps =>
      if alt.name = priUps.name then .ok (u, alt, merged, true)
      else if canMergeBackend priUps alt then
        match cond loc with
        | .error e => .error e
        | .ok false => mergeLocLoop mci cond rest (u, alt, merged)
        | .ok true =>
          let r := mergeAlternativeBackendByMCI mci priUps alt
          mergeLocLoop mci cond rest
            (insertUps (insertUps u loc.backend r.2.1) r.2.2.name r.2.2, r.2.2, r.1)
      else mergeLocLoop mci cond rest (u, alt, merged)

/-- The default-backend block of `mergeAlternativeBackendsByMCI`: locates the
alternative backend of the resource's default-backend reference and scans the
catch-all server's locations; deletes the alternative when the scan found
neither a self-reference nor a merge. -/
def mergeDefaultBackendPart (mci : MCI) (u : Upstreams) (servers : ServersMap) :
    Except String Upstreams :=
  match mci.defaultBackend with
  | none => .ok u
  | some svc =>
    let upsName := upstreamName mci.ns svc
    match lookupUps u upsName with
    | none => .ok u
    | some altUps =>
      match lookupSrv servers defServerName with
      | none => .error nilDeref
      | some defServer =>
        match mergeLocLoop mci (fun _ => .ok true) defServer.locations (u, altUps, false) with
        | .error e => .error e
        | .ok (u2, alt2, merged, altEqualsPri) =>
          if ¬ altEqualsPri ∧ ¬ merged then .ok (eraseUps u2 alt2.name) else .ok u2

/-- The per-location match condition of the rule/path case: the location's path
must equal the rule path and the two path kinds must be equal; comparing the
kinds dereferences both pointers, so a nil kind on either side panics.  The Go
conjunction short-circuits: a path mismatch never reaches the dereference. -/
def rulePathCond (p : HTTPPath) (loc : Location) : Except String Bool :=
  if loc.path = p.path then
    match loc.pathType, p.pathType with
    | some t1, some t2 => .ok (t1 = t2)
    | _, _ => .error nilDeref
  else .ok false

/-- One rule/path of the rule loop of `mergeAlternativeBackendsByMCI`: skipped
when the path has no service backend, when the alternative backend was already
removed, or — with an error log — when the rule's host has no server; otherwise
scans the host's locations and deletes the alternative when the scan found
neither a self-reference nor a merge. -/
def mergeRulePath (mci : MCI) (servers : ServersMap) (host : String) (u : Upstreams)
    (p : HTTPPath) : Except String Upstreams :=
  match p.service with
  | none => .ok u
  | some svc =>
    let upsName := upstreamName mci.ns svc
    match lookupUps u upsName with
    | none => .ok u
    | some altUps =>
      match lookupSrv servers host with
      | none => .ok u
      | some server =>
        match mergeLocLoop mci (rulePathCond p) server.locations (u, altUps, false) with
        | .error e => .error e
        | .ok (u2, alt2, merged, altEqualsPri) =>
          if ¬ altEqualsPri ∧ ¬ merged then .ok (eraseUps u2 alt2.name) else .ok u2

/-- `mergeAlternativeBackendsByMCI`: the default-backend block, then every
rule/path.  The rule loop ranges over `rule.HTTP.Paths` without a nil check, so
a rule without an HTTP section is a nil dereference. -/
def mergeAlternativeBackendsByMCI (mci : MCI) (u : Upstreams) (servers : ServersMap) :
    Except String Upstreams :=
  match mergeDefaultBackendPart mci u servers with
  | .error e => .error e
  | .ok u =>
    mci.rules.foldlM (fun u rule =>
        let host := if rule.host = "" then defServerName else rule.host
        match rule.http with
        | none => .error nilDeref
        | some paths => paths.foldlM (fun u p => mergeRulePath mci servers host u p) u)
      u

/-- `sort.SliceStable` with a strict `less` function, modelled as a stable
insertion sort: an element is inserted after every element that is strictly
less than it, which preserves the original order of equal elements exactly as
`sort.SliceStable` does. -/
def sliceStableSort (less : α → α → Prop) [DecidableRel less] (l : List α) : List α :=
  List.insertionSort (fun a b => ¬ less b a) l

/-- The final location ordering of `getBackendServersFromMCIs`: two stable
sorts in sequence, first descending lexicographically by path, then descending
by path length. -/
def sortServerLocations (locs : List Location) : List Location :=
  sliceStableSort (fun a b : Location => a.path.length > b.path.length)
    (sliceStableSort (fun a b : Location => a.path > b.path) locs)

/-- The final backend ordering of `getBackendServersFromMCIs`: stable sort
ascending by name. -/
def sortUpstreamsFinal (us : List Backend) : List Backend :=
  sliceStableSort (fun a b : Backend => a.name < b.name) us

/-- The final server ordering of `getBackendServersFromMCIs`: stable sort
ascending by hostname. -/
def sortServersFinal (ss : List Server) : List Server :=
  sliceStableSort (fun a b : Server => a.hostname < b.hostname) ss

/-- Concrete admission candidate for the overlap-check analysis: no canary
annotation, one rule with two service-backed paths. -/
def c1cand : AdmCandidate :=
  { ns := "ns1", name := "cand", canaryAnn := .missing
    rules := [{ host := "a.com", http := some [
      { path := "/x", pathType := some .pfx, service := some { name := "s1", port := "80" } },
      { path := "/y", pathType := some .pfx, service := some { name := "s2", port := "80" } }] }] }

/-- Concrete synthesized server set: at `a.com` the path `/x` is owned by a
canary-annotated resource and the path `/y` by a plain resource. -/
def c1servers : List Server :=
  [{ hostname := "a.com", locations := [
      { path := "/x", pathType := some .pfx, backend := "b1", isDefBackend := false
        owner := some { ns := "ns2", name := "other1", canaryAnn := .present true } },
      { path := "/y", pathType := some .pfx, backend := "b2", isDefBackend := false
        owner := some { ns := "ns3", name := "other2", canaryAnn := .missing } }] }]

/-- Placeholder root location of a server. -/
def c2root : Location :=
  { path := "/", pathType := some .pfx, backend := defUpstreamName, isDefBackend := true }

/-- First insertion: `/abc` with path kind Prefix. -/
def c2l1 : Location := { path := "/abc", pathType := some .pfx, backend := "u1" }

/-- Second insertion: `/abc` with path kind Exact. -/
def c2l2 : Location := { path := "/abc", pathType := some .exact, backend := "u2" }

/-- Third insertion: `/abc` with path kind Exact again, from another backend. -/
def c2l3 : Location := { path := "/abc", pathType := some .exact, backend := "u3" }

/-- Trivial collaborator environment for concrete upstream-builder runs. -/
def c3env : Env :=
  { defaultLoadBalancing := "round_robin"
    serviceEndpoints := fun _ _ => ([], none)
    clusterEndpoint := fun _ => .error "no endpoint"
    getService := fun _ => none
    deriveName := fun s => s }

/-- The shared service reference `s:80`. -/
def c3svc : ServiceRef := { name := "s", port := "80" }

/-- Resource `ns1/a`: references `s:80` from a rule path, load balancing
annotation `lbA`. -/
def c3A : MCI :=
  { ns := "ns1", name := "a", parsedAnnotations := { loadBalancing := "lbA" }
    rules := [{ host := "a.com"
                http := some [{ path := "/", pathType := some .pfx, service := some c3svc }] }] }

/-- Resource `ns1/b`: references the same `s:80` as its default backend, load
balancing annotation `lbB`. -/
def c3B : MCI :=
  { ns := "ns1", name := "b", parsedAnnotations := { loadBalancing := "lbB" }
    defaultBackend := some c3svc }

/-- The default upstream seeded under the reserved key. -/
def c3def : Backend := { name := defUpstreamName }

/-- A backend already created for the key `ns1-s-80`. -/
def c3b : Backend := { name := "ns1-s-80", loadBalancing := "lbA" }

/-- An upstream map already containing the key `ns1-s-80`. -/
def c3u : Upstreams := [("ns1-s-80", c3b)]

/-- A rule path referencing the shared service. -/
def c3p : HTTPPath := { path := "/", pathType := some .pfx, service := some c3svc }

/-- A canary alternative backend under the key `ns1-s-80`. -/
def c4alt : Backend := { name := "ns1-s-80", noServer := true }

/-- The default backend entry. -/
def c4defb : Backend := { name := defUpstreamName }

/-- Upstream map holding the default backend and the alternative backend. -/
def c4u : Upstreams := [(defUpstreamName, c4defb), ("ns1-s-80", c4alt)]

/-- The canary rule path referencing the shared service. -/
def c4p : HTTPPath := { path := "/", pathType := some .pfx, service := some c3svc }

/-- A canary resource whose single rule names the host `x.com`. -/
def c4mci : MCI :=
  { ns := "ns1", name := "can", canaryAnn := .present true
    parsedAnnotations := { canary := { enabled := true } }
    rules := [{ host := "x.com", http := some [c4p] }] }

/-- Root location of the catch-all server. -/
def c4rootLoc : Location :=
  { path := "/", pathType := some .pfx, backend := defUpstreamName, isDefBackend := true }

/-- Server map containing only the catch-all server: the canary host `x.com`
has no server. -/
def c4servers : ServersMap := [("_", { hostname := "_", locations := [c4rootLoc] })]

/-- A server for `x.com` whose only location path does not match the canary
path, so the location scan ends with no merge. -/
def c4srvDel : Server :=
  { hostname := "x.com"
    locations := [{ path := "/z", pathType := some .pfx, backend := defUpstreamName }] }

/-- Server map for the deletion case. -/
def c4serversDel : ServersMap := [("x.com", c4srvDel)]

/-- A server for `x.com` whose root location is backed by the alternative
backend itself (self-reference). -/
def c4srvSelf : Server :=
  { hostname := "x.com"
    locations := [{ path := "/", pathType := some .pfx, backend := "ns1-s-80" }] }

/-- Server map for the self-reference case. -/
def c4serversSelf : ServersMap := [("x.com", c4srvSelf)]

/-- A canary resource with a default-backend reference and no rules. -/
def c4mciD : MCI :=
  { ns := "ns1", name := "can", parsedAnnotations := { canary := { enabled := true } }
    defaultBackend := some c3svc }

/-- A canary (`NoServer`) primary backend, never mergeable. -/
def c4priNS : Backend := { name := "other-canary", noServer := true }

/-- Upstream map for the default-backend deletion case. -/
def c4uD : Upstreams := [("other-canary", c4priNS), ("ns1-s-80", c4alt)]

/-- Catch-all server whose root location is backed by a `NoServer` backend. -/
def c4srvD : Server :=
  { hostname := "_"
    locations := [{ path := "/", pathType := some .pfx, backend := "other-canary" }] }

/-- Server map for the default-backend deletion case. -/
def c4serversD : ServersMap := [("_", c4srvD)]

/-- A backend for `ns1-s-80` carrying a service reference. -/
def c5bu : Backend := { name := "ns1-s-80", service := some "svc-s" }

/-- Upstream map for the catch-all override analysis. -/
def c5ups : Upstreams := [("ns1-s-80", c5bu)]

/-- A non-canary resource declaring both a default-backend reference and a
rule. -/
def c5mci : MCI :=
  { ns := "ns1", name := "m5"
    parsedAnnotations := { redirect := { target := "ANN-REDIR" }
                           rewrite := { target := "ANN-REWR" }, auth := "ANN-AUTH" }
    defaultBackend := some c3svc
    rules := [{ host := "a.com", http := some [] }] }

/-- The same resource with zero rules (the genuine catch-all override). -/
def c5mciZ : MCI :=
  { ns := "ns1", name := "m5z"
    parsedAnnotations := { redirect := { target := "ANN-REDIR" }
                           rewrite := { target := "ANN-REWR" }, auth := "ANN-AUTH" }
    defaultBackend := some c3svc }

/-- The catch-all root location before the override, with distinguishable
redirect and rewrite payloads. -/
def c5defLoc : Location :=
  { path := "/", pathType := some .pfx, backend := defUpstreamName, isDefBackend := true
    redirect := { fromToWWW := false, target := "ORIG-REDIR" }
    rewrite := { target := "ORIG-REWR" } }

/-- A canary resource one of whose rules has no HTTP section. -/
def c6mci : MCI :=
  { ns := "ns1", name := "can6", parsedAnnotations := { canary := { enabled := true } }
    rules := [{ host := "y.com", http := none }] }

/-- A resource carrier for merge calls. -/
def c8mci : MCI := { ns := "ns1", name := "m8" }

/-- A `NoServer` primary whose alternative list already contains `a`. -/
def c8pri : Backend := { name := "p", noServer := true, alternativeBackends := ["a"] }

/-- The alternative backend `a`. -/
def c8alt : Backend := { name := "a", noServer := true }

/-- A regular primary whose alternative list already contains `a`. -/
def c8priOK : Backend := { name := "p", alternativeBackends := ["a"] }

/-- A certificate for `b.com` only: it fails hostname validation for `a.com`
by both SAN and CN. -/
def c9cert : SSLCert :=
  { hasCertificate := true, sanHosts := ["b.com"], cnHosts := [], payload := "cert1" }

/-- A resource whose TLS section lists `a.com` with secret `cert1`. -/
def c9mci : MCI :=
  { ns := "ns1", name := "m9", tls := [{ hosts := ["a.com"], secretName := "cert1" }] }

/-- Certificate store holding only `ns1/cert1`. -/
def c9get : String → Option SSLCert := fun k => if k = "ns1/cert1" then some c9cert else none

/-- The cluster default certificate. -/
def c9default : SSLCert :=
  { hasCertificate := true, sanHosts := [], cnHosts := [], payload := "default" }

/-- A canary resource with a fully populated traffic-shaping annotation group
and a default-backend reference. -/
def c10mci : MCI :=
  { ns := "ns1", name := "m10"
    parsedAnnotations := { canary := { enabled := true, weight := 10, weightTotal := 100
                                       header := "h", headerValue := "v"
                                       headerPattern := "pat", cookie := "ck" } }
    defaultBackend := some c3svc }

/-- The second service reference `s2:80`. -/
def c10svc : ServiceRef := { name := "s2", port := "80" }

/-- A rule path of the same resource referencing another service. -/
def c10p : HTTPPath :=
  { path := "/", pathType := some .pfx, service := some c10svc }

/-- Writing a key into the map makes it the value that lookup returns. -/
theorem lookupUps_insertUps_self (u : Upstreams) (k : String) (b : Backend) :
    lookupUps (insertUps u k b) k = some b := by
  induction u with
  | nil => simp [insertUps, lookupUps]
  | cons hd tl ih =>
    obtain ⟨k2, b2⟩ := hd
    by_cases h : k = k2
    · simp [insertUps, lookupUps, h]
    · simp [insertUps, lookupUps, h, ih]

/-- A deleted key is absent from the map. -/
theorem lookupUps_eraseUps_self (u : Upstreams) (k : String) :
    lookupUps (eraseUps u k) k = none := by
  induction u with
  | nil => rfl
  | cons hd tl ih =>
    obtain ⟨k2, b2⟩ := hd
    by_cases h : k = k2
    · simpa [eraseUps, h] using ih
    · simp [eraseUps, lookupUps, h, ih]

/-- Every list is pairwise related by the trivial relation. -/
theorem pairwise_true (l : List α) : l.Pairwise fun _ _ => True := by
  induction l with
  | nil => exact .nil
  | cons a t ih => exact .cons (fun _ _ => trivial) ih

/-- Stable insertion preserves sortedness together with a tie-break relation:
for a total transitive sort relation `r`, inserting an element related by `S`
to every list element keeps the list pairwise sorted by `r` with `S` holding
on every tie. -/
theorem pairwise_orderedInsert_stable (r : α → α → Prop) [DecidableRel r]
    (htot : ∀ a b, r a b ∨ r b a) (htr : ∀ a b c, r a b → r b c → r a c)
    (S : α → α → Prop) (a : α) :
    ∀ l : List α, l.Pairwise (fun x y => r x y ∧ (r y x → S x y)) →
      (∀ x ∈ l, S a x) →
      (List.orderedInsert r a l).Pairwise fun x y => r x y ∧ (r y x → S x y) := by
  intro l
  induction l with
  | nil => intro _ _; simp [List.orderedInsert]
  | cons b t ih =>
    intro hp hS
    rw [List.pairwise_cons] at hp
    obtain ⟨hb, ht⟩ := hp
    by_cases hr : r a b
    · rw [List.orderedInsert, if_pos hr]
      refine List.Pairwise.cons ?_ (List.Pairwise.cons hb ht)
      intro x hx
      rcases List.mem_cons.mp hx with rfl | hx
      · exact ⟨hr, fun _ => hS x (by simp)⟩
      · exact ⟨htr a b x hr (hb x hx).1, fun _ => hS x (by simp [hx])⟩
    · rw [List.orderedInsert, if_neg hr]
      refine List.Pairwise.cons ?_ (ih ht fun x hx => hS x (by simp [hx]))
      intro x hx
      rcases (List.mem_orderedInsert r).mp hx with rfl | hx
      · exact ⟨(htot x b).resolve_left hr, fun h2 => absurd h2 hr⟩
      · exact hb x hx

/-- Stability of insertion sort: sorting a list that is pairwise related by `S`
with a total transitive relation `r` yields a list pairwise sorted by `r` in
which every `r`-tie still satisfies `S` in its original orientation. -/
theorem pairwise_insertionSort_stable (r : α → α → Prop) [DecidableRel r]
    (htot : ∀ a b, r a b ∨ r b a) (htr : ∀ a b c, r a b → r b c → r a c)
    (S : α → α → Prop) :
    ∀ l : List α, l.Pairwise S →
      (List.insertionSort r l).Pairwise fun x y => r x y ∧ (r y x → S x y) := by
  intro l
  induction l with
  | nil => intro _; simp [List.insertionSort]
  | cons a t ih =>
    intro hp
    rw [List.pairwise_cons] at hp
    obtain ⟨ha, ht⟩ := hp
    rw [List.insertionSort]
    exact pairwise_orderedInsert_stable r htot htr S a _ (ih ht)
      fun x hx => ha x ((List.mem_insertionSort r).mp hx)

/-- C1 counterexample: with this candidate and server set the claimed per-path
conflict rule predicts a reported conflict (the second path overlaps a plain
existing resource of another identity while the candidate is plain too), yet
`checkOverlapWithMCI` accepts, because it returns after the first path that has
any overlap. -/
theorem C1_counterexample :
    checkOverlapWithMCI c1cand c1servers = none ∧
      (candidatePaths c1cand).any (fun hp =>
        (mciForHostPath hp.1 hp.2 c1servers).any fun e =>
          ¬ (e.ns = c1cand.ns ∧ e.name = c1cand.name) ∧ overlapConflict c1cand e) = true := by
  decide

/-- C1 (amended): the overlap check scans the candidate's service-backed
rule/paths in order and is decided entirely by the first path with overlapping
non-default-backend locations: it accepts when one of them belongs to the
candidate itself, otherwise reports the first existing resource forming a
conflicting pair (both lacking the canary annotation, or both declaring
canary), and accepts when there is none — later paths are never examined. -/
theorem C1_overlap_check_first_hit (cand : AdmCandidate) (servers : List Server) :
    checkOverlapWithMCI cand servers =
      match (candidatePaths cand).find?
          (fun hp => !(mciForHostPath hp.1 hp.2 servers).isEmpty) with
      | none => none
      | some hp =>
        if (mciForHostPath hp.1 hp.2 servers).any
            (fun e => e.ns = cand.ns ∧ e.name = cand.name) then none
        else (mciForHostPath hp.1 hp.2 servers).find? (overlapConflict cand) := by
  unfold checkOverlapWithMCI
  induction candidatePaths cand with
  | nil => rfl
  | cons hp rest ih =>
    obtain ⟨host, path⟩ := hp
    by_cases h : (mciForHostPath host path servers).isEmpty = true
    · rw [List.find?_cons_of_neg _ (by simpa using h)]
      simp only [checkOverlapPaths, h, if_true]
      exact ih
    · rw [List.find?_cons_of_pos _ (by simpa using h)]
      simp only [checkOverlapPaths]
      rw [if_neg h]
      split
      · rfl
      · cases List.find? (overlapConflict cand) (mciForHostPath host path servers) <;> rfl

/-- C2: evaluating the location-insertion logic of `getBackendServersFromMCIs`
on three insertions at the same path — Prefix, then Exact, then Exact again —
yields a location list with two entries sharing the `(path, pathType)` key:
the scan `break`s at the Prefix entry when the last Exact entry arrives and
appends a duplicate instead of skipping it. -/
theorem C2_duplicate_location_key :
    ¬ locationsKeyUnique (addLocation c2l3 (addLocation c2l2 (addLocation c2l1 [c2root]))) := by
  decide

/-- C3 counterexample: resource `ns1/a` creates the backend `ns1-s-80` from a
rule/path (annotations `lbA`); the later resource `ns1/b` references the same
service as its default backend and re-creates the backend, whose fields then
come from `ns1/b` (`lbB`), not from the first writer. -/
theorem C3_counterexample :
    (lookupUps (createUpstreamsFromMCIs c3env [c3A] c3def) "ns1-s-80").map
        Backend.loadBalancing = some "lbA" ∧
    (lookupUps (createUpstreamsFromMCIs c3env [c3A, c3B] c3def) "ns1-s-80").map
        Backend.loadBalancing = some "lbB" := ⟨rfl, rfl⟩

/-- C3 (amended): first-writer-wins holds only for rule/path service
references — a path whose identity key already exists leaves the upstream map
unchanged — while a default-backend reference always writes a freshly built
backend under its key, overwriting any earlier backend for that key. -/
theorem C3_first_writer_wins_paths_only (env : Env) (mci : MCI) (u : Upstreams) :
    (∀ p svc b, p.service = some svc →
        lookupUps u (upstreamName mci.ns svc) = some b →
        processPathUps env mci u p = u) ∧
    (∀ svc, mci.defaultBackend = some svc →
        processDefBackendUps env mci u =
          insertUps u (upstreamName mci.ns svc) (defBackendUpstream env mci svc)) := by
  constructor
  · intro p svc b hsvc hb
    simp [processPathUps, hsvc, hb]
  · intro svc hsvc
    simp [processDefBackendUps, hsvc]

/-- C3 witness: a path of `ns1/a` whose key is already present leaves the map
unchanged, and the default-backend reference of `ns1/b` overwrites that same
key with a freshly built backend. -/
theorem C3_first_writer_wins_witness :
    processPathUps c3env c3A c3u c3p = c3u ∧
    processDefBackendUps c3env c3B c3u =
      insertUps c3u (upstreamName c3B.ns c3svc) (defBackendUpstream c3env c3B c3svc) :=
  ⟨(C3_first_writer_wins_paths_only c3env c3A c3u).1 c3p c3svc c3b (by decide) (by decide),
   (C3_first_writer_wins_paths_only c3env c3B c3u).2 c3svc (by decide)⟩

/-- C4 counterexample: a canary resource whose rule host `x.com` has no server
finds no mergeable primary location, yet its alternative backend is not
deleted — the merge pass returns the upstream map unchanged with the
alternative backend still present. -/
theorem C4_counterexample :
    mergeAlternativeBackendsByMCI c4mci c4u c4servers = .ok c4u ∧
    lookupUps c4u "ns1-s-80" = some c4alt ∧ c4alt.noServer = true ∧
    lookupSrv c4servers "x.com" = none := ⟨rfl, by decide, rfl, by decide⟩

/-- C4 (amended): for a canary rule/path whose host has no server, the merge is
skipped and the alternative backend is preserved; when the host has a server,
the alternative backend is deleted — and absent from the map — exactly when
the location scan found neither a merge nor a self-reference, is preserved
when the scan broke on a self-reference, and the catch-all default-backend
scan deletes under the same no-merge, no-self-reference condition. -/
theorem C4_merge_rule_path_outcomes (mci : MCI) (servers : ServersMap) (host : String)
    (u : Upstreams) (p : HTTPPath) :
    (∀ svc alt, p.service = some svc →
        lookupUps u (upstreamName mci.ns svc) = some alt →
        lookupSrv servers host = none →
        mergeRulePath mci servers host u p = .ok u) ∧
    (∀ svc alt server u2 alt2, p.service = some svc →
        lookupUps u (upstreamName mci.ns svc) = some alt →
        lookupSrv servers host = some server →
        mergeLocLoop mci (rulePathCond p) server.locations (u, alt, false) =
          .ok (u2, alt2, false, false) →
        mergeRulePath mci servers host u p = .ok (eraseUps u2 alt2.name) ∧
          lookupUps (eraseUps u2 alt2.name) alt2.name = none) ∧
    (∀ svc alt server u2 alt2 merged, p.service = some svc →
        lookupUps u (upstreamName mci.ns svc) = some alt →
        lookupSrv servers host = some server →
        mergeLocLoop mci (rulePathCond p) server.locations (u, alt, false) =
          .ok (u2, alt2, merged, true) →
        mergeRulePath mci servers host u p = .ok u2) ∧
    (∀ svc alt defServer u2 alt2, mci.defaultBackend = some svc →
        lookupUps u (upstreamName mci.ns svc) = some alt →
        lookupSrv servers defServerName = some defServer →
        mergeLocLoop mci (fun _ => .ok true) defServer.locations (u, alt, false) =
          .ok (u2, alt2, false, false) →
        mergeDefaultBackendPart mci u servers = .ok (eraseUps u2 alt2.name)) := by
  refine ⟨?_, ?_, ?_, ?_⟩
  · intro svc alt hsvc halt hsrv
    simp [mergeRulePath, hsvc, halt, hsrv]
  · intro svc alt server u2 alt2 hsvc halt hsrv hloop
    refine ⟨?_, lookupUps_eraseUps_self _ _⟩
    simp [mergeRulePath, hsvc, halt, hsrv, hloop]
  · intro svc alt server u2 alt2 merged hsvc halt hsrv hloop
    simp [mergeRulePath, hsvc, halt, hsrv, hloop]
  · intro svc alt defServer u2 alt2 hsvc halt hsrv hloop
    simp [mergeDefaultBackendPart, hsvc, halt, hsrv, hloop]

/-- C4 witness: the missing-host rule/path is skipped with the alternative
preserved; a host whose locations never match yields deletion with the key
absent; a self-referencing location preserves the map; and an unmergeable
catch-all scan deletes the alternative of a default-backend reference. -/
theorem C4_merge_rule_path_witness :
    mergeRulePath c4mci c4servers "x.com" c4u c4p = .ok c4u ∧
    (mergeRulePath c4mci c4serversDel "x.com" c4u c4p = .ok (eraseUps c4u c4alt.name) ∧
      lookupUps (eraseUps c4u c4alt.name) c4alt.name = none) ∧
    mergeRulePath c4mci c4serversSelf "x.com" c4u c4p = .ok c4u ∧
    mergeDefaultBackendPart c4mciD c4uD c4serversD = .ok (eraseUps c4uD c4alt.name) :=
  ⟨(C4_merge_rule_path_outcomes c4mci c4servers "x.com" c4u c4p).1 c3svc c4alt rfl
      (by decide) (by decide),
   (C4_merge_rule_path_outcomes c4mci c4serversDel "x.com" c4u c4p).2.1 c3svc c4alt c4srvDel
      c4u c4alt rfl (by decide) (by decide) (by rfl),
   (C4_merge_rule_path_outcomes c4mci c4serversSelf "x.com" c4u c4p).2.2.1 c3svc c4alt
      c4srvSelf c4u c4alt false rfl (by decide) (by decide) (by rfl),
   (C4_merge_rule_path_outcomes c4mciD c4serversD "x.com" c4uD c4p).2.2.2 c3svc c4alt c4srvD
      c4uD c4alt (by decide) (by decide) (by decide) (by rfl)⟩

/-- C5 counterexample: a non-canary resource that declares both a
default-backend reference and a rule still mutates the catch-all root
location — its backend is rewired even though the resource is not a pure
catch-all override. -/
theorem C5_counterexample :
    c5mci.parsedAnnotations.canary.enabled = false ∧
    c5mci.rules ≠ [] ∧
    (catchAllStep defUpstreamName c5mci c5ups c5defLoc).2.backend ≠ c5defLoc.backend := by
  refine ⟨rfl, by decide, by decide⟩

/-- C5 (amended): canary resources and resources without a resolvable
default-backend upstream leave the catch-all root location untouched; any
other resource with a default-backend reference rewires the root location's
backend, service and owner unconditionally and binds the backend as its
fallback upstream; only when the root location is still the placeholder and
the resource declares no rules is the placeholder flag cleared and the
annotation bundle applied, with redirect and rewrite preserved from the prior
configuration. -/
theorem C5_catch_all_override (un : String) (mci : MCI) (ups : Upstreams)
    (defLoc : Location) :
    (mci.parsedAnnotations.canary.enabled = true →
      catchAllStep un mci ups defLoc = (un, defLoc)) ∧
    (mci.defaultBackend = none → catchAllStep un mci ups defLoc = (un, defLoc)) ∧
    (∀ svc bu, mci.parsedAnnotations.canary.enabled = false →
      mci.defaultBackend = some svc →
      lookupUps ups (upstreamName mci.ns svc) = some bu →
      (catchAllStep un mci ups defLoc).1 = bu.name ∧
      (mci.rules ≠ [] ∨ defLoc.isDefBackend = false →
        (catchAllStep un mci ups defLoc).2 =
          { defLoc with backend := bu.name, service := bu.service, owner := some mci.ref }) ∧
      (mci.rules = [] → defLoc.isDefBackend = true →
        (catchAllStep un mci ups defLoc).2 =
          { defLoc with
            backend := bu.name
            service := bu.service
            owner := some mci.ref
            isDefBackend := false
            auth := mci.parsedAnnotations.auth })) := by
  refine ⟨?_, ?_, ?_⟩
  · intro h; simp [catchAllStep, h]
  · intro h
    cases hc : mci.parsedAnnotations.canary.enabled <;> simp [catchAllStep, h, hc]
  · intro svc bu hc hd hl
    refine ⟨?_, ?_, ?_⟩
    · by_cases hz : defLoc.isDefBackend = true ∧ mci.rules = [] <;>
        simp [catchAllStep, hc, hd, hl, hz, locationApplyAnnotations]
    · intro hnz
      have : ¬ (defLoc.isDefBackend = true ∧ mci.rules = []) := by
        rcases hnz with h | h
        · exact fun hh => h hh.2
        · exact fun hh => by rw [h] at hh; exact Bool.false_ne_true hh.1
      simp [catchAllStep, hc, hd, hl, this]
    · intro hz hdb
      simp [catchAllStep, hc, hd, hl, hz, hdb, locationApplyAnnotations]

/-- C5 witness: the resource with rules rewires only backend, service and
owner of the root location; the zero-rule resource additionally clears the
placeholder flag and applies the annotation bundle while keeping the original
redirect and rewrite payloads. -/
theorem C5_catch_all_override_witness :
    (catchAllStep defUpstreamName c5mci c5ups c5defLoc).1 = c5bu.name ∧
    (catchAllStep defUpstreamName c5mci c5ups c5defLoc).2 =
      { c5defLoc with
        backend := c5bu.name
        service := c5bu.service
        owner := some c5mci.ref } ∧
    (catchAllStep defUpstreamName c5mciZ c5ups c5defLoc).2 =
      { c5defLoc with
        backend := c5bu.name
        service := c5bu.service
        owner := some c5mciZ.ref
        isDefBackend := false
        auth := c5mciZ.parsedAnnotations.auth } :=
  ⟨((C5_catch_all_override defUpstreamName c5mci c5ups c5defLoc).2.2 c3svc c5bu rfl rfl
      (by decide)).1,
   ((C5_catch_all_override defUpstreamName c5mci c5ups c5defLoc).2.2 c3svc c5bu rfl rfl
      (by decide)).2.1 (Or.inl (by decide)),
   ((C5_catch_all_override defUpstreamName c5mciZ c5ups c5defLoc).2.2 c3svc c5bu rfl rfl
      (by decide)).2.2 rfl rfl⟩

/-- C6: the canary merge pass dereferences `rule.HTTP` without a nil check, so
a canary resource whose rule lacks an HTTP section makes the merge — and with
it the whole synthesis pass — panic instead of producing a configuration. -/
theorem C6_nil_http_rule_panics :
    mergeAlternativeBackendsByMCI c6mci c4u c4servers = .error nilDeref := rfl

/-- C7: in the assembled configuration, the two stable location sorts yield,
for every server, an order that is longest-path-first with descending
lexicographic tie-break among equal-length paths; backends are sorted
ascending by name and servers ascending by hostname; each sort is a
permutation of its input, and the model is a pure function, so the same input
always yields the same ordering. -/
theorem C7_final_ordering (locs : List Location) (us : List Backend) (ss : List Server) :
    List.Perm (sortServerLocations locs) locs ∧
    (sortServerLocations locs).Pairwise (fun a b =>
        b.path.length ≤ a.path.length ∧
          (a.path.length = b.path.length → b.path ≤ a.path)) ∧
    List.Perm (sortUpstreamsFinal us) us ∧
    (sortUpstreamsFinal us).Pairwise (fun a b => a.name ≤ b.name) ∧
    List.Perm (sortServersFinal ss) ss ∧
    (sortServersFinal ss).Pairwise (fun a b => a.hostname ≤ b.hostname) := by
  refine ⟨?_, ?_, ?_, ?_, ?_, ?_⟩
  · exact (List.perm_insertionSort _ _).trans (List.perm_insertionSort _ _)
  · have h1 := pairwise_insertionSort_stable
      (r := fun a b : Location => ¬ (b.path > a.path))
      (fun a b => by
        rcases le_total a.path b.path with h | h
        · exact Or.inr (not_lt.mpr h)
        · exact Or.inl (not_lt.mpr h))
      (fun a b c hab hbc => not_lt.mpr (le_trans (not_lt.mp hbc) (not_lt.mp hab)))
      (fun _ _ => True) locs (pairwise_true locs)
    have h1' : (sliceStableSort (fun a b : Location => a.path > b.path) locs).Pairwise
        fun x y => ¬ (y.path > x.path) := h1.imp fun h => h.1
    have h2 := pairwise_insertionSort_stable
      (r := fun a b : Location => ¬ (b.path.length > a.path.length))
      (fun a b => by
        rcases Nat.le_total a.path.length b.path.length with h | h
        · exact Or.inr (not_lt.mpr h)
        · exact Or.inl (not_lt.mpr h))
      (fun a b c hab hbc => not_lt.mpr (le_trans (not_lt.mp hbc) (not_lt.mp hab)))
      (fun x y : Location => ¬ (y.path > x.path)) _ h1'
    refine h2.imp fun {x y} h => ⟨not_lt.mp h.1, fun heq => ?_⟩
    have hyx : (fun a b : Location => ¬ (b.path.length > a.path.length)) y x := by
      show ¬ (x.path.length > y.path.length)
      omega
    exact not_lt.mp (h.2 hyx)
  · exact List.perm_insertionSort _ _
  · have h1 := pairwise_insertionSort_stable
      (r := fun a b : Backend => ¬ (b.name < a.name))
      (fun a b => by
        rcases le_total a.name b.name with h | h
        · exact Or.inl (not_lt.mpr h)
        · exact Or.inr (not_lt.mpr h))
      (fun a b c hab hbc => not_lt.mpr (le_trans (not_lt.mp hab) (not_lt.mp hbc)))
      (fun _ _ => True) us (pairwise_true us)
    exact h1.imp fun h => not_lt.mp h.1
  · exact List.perm_insertionSort _ _
  · have h1 := pairwise_insertionSort_stable
      (r := fun a b : Server => ¬ (b.hostname < a.hostname))
      (fun a b => by
        rcases le_total a.hostname b.hostname with h | h
        · exact Or.inl (not_lt.mpr h)
        · exact Or.inr (not_lt.mpr h))
      (fun a b c hab hbc => not_lt.mpr (le_trans (not_lt.mp hab) (not_lt.mp hbc)))
      (fun _ _ => True) ss (pairwise_true ss)
    exact h1.imp fun h => not_lt.mp h.1

/-- C8 counterexample: for a `NoServer` primary whose alternative list already
contains the alternative backend's name, the merge is refused — it reports
failure, not the claimed no-op success, because the `NoServer` guard precedes
the already-present check. -/
theorem C8_counterexample :
    c8pri.alternativeBackends.contains c8alt.name = true ∧
    (mergeAlternativeBackendByMCI c8mci c8pri c8alt).1 = false := by decide

/-- C8 (amended): when the primary is not a `NoServer` backend — the only case
reachable through the merge loop's `canMergeBackend` guard — an already-listed
alternative name makes the merge a no-op reported as success; and for every
primary and alternative whatsoever, merging twice yields the same
alternative-backend list as merging once. -/
theorem C8_merge_idempotent (mci : MCI) (pri alt : Backend) :
    (pri.noServer = false → pri.alternativeBackends.contains alt.name = true →
      mergeAlternativeBackendByMCI mci pri alt = (true, pri, alt)) ∧
    ((mergeAlternativeBackendByMCI mci
        (mergeAlternativeBackendByMCI mci pri alt).2.1
        (mergeAlternativeBackendByMCI mci pri alt).2.2).2.1.alternativeBackends =
      (mergeAlternativeBackendByMCI mci pri alt).2.1.alternativeBackends) := by
  constructor
  · intro hn hc
    have hm : alt.name ∈ pri.alternativeBackends := by simpa using hc
    simp [mergeAlternativeBackendByMCI, hn, hm]
  · by_cases hn : pri.noServer = true
    · simp [mergeAlternativeBackendByMCI, hn]
    · by_cases hc : alt.name ∈ pri.alternativeBackends
      · simp [mergeAlternativeBackendByMCI, hn, hc]
      · by_cases hleg : mci.parsedAnnotations.canaryBehavior = "legacy" <;>
          simp [mergeAlternativeBackendByMCI, hn, hc, hleg]

/-- C8 witness: a regular primary already listing the alternative name returns
a no-op success. -/
theorem C8_merge_idempotent_witness :
    mergeAlternativeBackendByMCI c8mci c8priOK c8alt = (true, c8priOK, c8alt) :=
  (C8_merge_idempotent c8mci c8priOK c8alt).1 rfl (by decide)

/-- C9: for a host of a resource with a TLS section, certificate resolution
always assigns some certificate, and the result is either the cluster default
certificate — covering every failure tier: empty secret name, unloadable
secret, secret without a certificate, hostname validation failing both SAN and
CN — or a successfully loaded certificate that validates the host by SAN or
CN; TLS resolution failure never aborts synthesis. -/
theorem C9_tls_failure_defaults (host : String) (mci : MCI)
    (getCert : String → Option SSLCert) (defaultCert : SSLCert)
    (htls : mci.tls ≠ []) :
    (resolveServerCert host mci getCert defaultCert).isSome = true ∧
      (resolveServerCert host mci getCert defaultCert = some defaultCert ∨
        ∃ cert, resolveServerCert host mci getCert defaultCert = some cert ∧
          getCert (mci.ns ++ "/" ++ extractTLSSecretNameFromMCI host (some mci) getCert) =
            some cert ∧
          cert.hasCertificate = true ∧
          (verifySAN host cert = true ∨ verifyCN host cert = true)) := by
  have hne : mci.tls.isEmpty = false := by
    cases h : mci.tls with
    | nil => exact absurd h htls
    | cons a t => rfl
  unfold resolveServerCert
  rw [hne]
  simp only [Bool.false_eq_true, if_false]
  by_cases hs : extractTLSSecretNameFromMCI host (some mci) getCert = ""
  · simp [hs]
  · simp only [hs, if_false, if_neg hs]
    cases hg : getCert (mci.ns ++ "/" ++ extractTLSSecretNameFromMCI host (some mci) getCert) with
    | none => simp
    | some cert =>
      by_cases hcert : cert.hasCertificate = true
      · by_cases hsan : verifySAN host cert = true
        · simp [hcert, hsan, hg]
        · by_cases hcn : verifyCN host cert = true
          · simp [hcert, hsan, hcn, hg]
          · simp [hcert, hsan, hcn]
      · simp [hcert]

/-- C9 witness: the spec's example — TLS section listing `a.com` with secret
`cert1` whose certificate validates neither SAN nor CN for `a.com` — resolves
to the cluster default certificate rather than an error. -/
theorem C9_tls_failure_defaults_witness :
    (resolveServerCert "a.com" c9mci c9get c9default).isSome = true ∧
      (resolveServerCert "a.com" c9mci c9get c9default = some c9default ∨
        ∃ cert, resolveServerCert "a.com" c9mci c9get c9default = some cert ∧
          c9get (c9mci.ns ++ "/" ++ extractTLSSecretNameFromMCI "a.com" (some c9mci) c9get) =
            some cert ∧
          cert.hasCertificate = true ∧
          (verifySAN "a.com" cert = true ∨ verifyCN "a.com" cert = true)) :=
  C9_tls_failure_defaults "a.com" c9mci c9get c9default (by decide)

/-- C10: a backend created for a canary resource's rule/path service reference
is stamped with a traffic-shaping policy whose `WeightTotal` is the zero
value — only weight, header, header value, header pattern and cookie are
copied — whereas the backend created from the same resource's default-backend
reference receives `WeightTotal` from the annotations as well. -/
theorem C10_weight_total_zero_for_paths (env : Env) (mci : MCI) (u : Upstreams) :
    (∀ p svc, p.service = some svc →
      lookupUps u (upstreamName mci.ns svc) = none →
      mci.parsedAnnotations.canary.enabled = true →
      ∃ b, lookupUps (processPathUps env mci u p) (upstreamName mci.ns svc) = some b ∧
        b.noServer = true ∧
        b.trafficShapingPolicy =
          { weight := mci.parsedAnnotations.canary.weight
            weightTotal := 0
            header := mci.parsedAnnotations.canary.header
            headerValue := mci.parsedAnnotations.canary.headerValue
            headerPattern := mci.parsedAnnotations.canary.headerPattern
            cookie := mci.parsedAnnotations.canary.cookie }) ∧
    (∀ svc, mci.defaultBackend = some svc →
      mci.parsedAnnotations.canary.enabled = true →
      ∃ b, lookupUps (processDefBackendUps env mci u) (upstreamName mci.ns svc) = some b ∧
        b.trafficShapingPolicy =
          { weight := mci.parsedAnnotations.canary.weight
            weightTotal := mci.parsedAnnotations.canary.weightTotal
            header := mci.parsedAnnotations.canary.header
            headerValue := mci.parsedAnnotations.canary.headerValue
            headerPattern := mci.parsedAnnotations.canary.headerPattern
            cookie := mci.parsedAnnotations.canary.cookie }) := by
  constructor
  · intro p svc hsvc hnone hcan
    simp [processPathUps, hsvc, hnone, hcan, newUpstream]
    repeat' split
    all_goals
      exact ⟨_, lookupUps_insertUps_self _ _ _, by simp, by simp⟩
  · intro svc hsvc hcan
    simp only [processDefBackendUps, hsvc]
    refine ⟨_, lookupUps_insertUps_self _ _ _, ?_⟩
    simp [defBackendUpstream, hcan, newUpstream]
    repeat' split
    all_goals simp

/-- C10 witness: the concrete canary resource's rule/path backend carries
`WeightTotal` zero while its default-backend backend carries the annotated
total of 100. -/
theorem C10_weight_total_witness :
    (∃ b, lookupUps (processPathUps c3env c10mci [] c10p) (upstreamName c10mci.ns c10svc) =
        some b ∧
      b.noServer = true ∧
      b.trafficShapingPolicy =
        { weight := c10mci.parsedAnnotations.canary.weight
          weightTotal := 0
          header := c10mci.parsedAnnotations.canary.header
          headerValue := c10mci.parsedAnnotations.canary.headerValue
          headerPattern := c10mci.parsedAnnotations.canary.headerPattern
          cookie := c10mci.parsedAnnotations.canary.cookie }) ∧
    (∃ b, lookupUps (processDefBackendUps c3env c10mci []) (upstreamName c10mci.ns c3svc) =
        some b ∧
      b.trafficShapingPolicy =
        { weight := c10mci.parsedAnnotations.canary.weight
          weightTotal := c10mci.parsedAnnotations.canary.weightTotal
          header := c10mci.parsedAnnotations.canary.header
          headerValue := c10mci.parsedAnnotations.canary.headerValue
          headerPattern := c10mci.parsedAnnotations.canary.headerPattern
          cookie := c10mci.parsedAnnotations.canary.cookie }) :=
  ⟨(C10_weight_total_zero_for_paths c3env c10mci []).1 c10p c10svc rfl rfl rfl,
   (C10_weight_total_zero_for_paths c3env c10mci []).2 c3svc rfl rfl⟩
